import Mathlib

set_option maxRecDepth 10000

/-!
# Verification of the curtain_control TCP client core

Shallow embedding of the OpenGreenhouseManager/curtain_control sources
(`src/bin/main.rs`, `src/tcp_client.rs`) in Lean 4, together with proofs
about the command dispatcher, the line framer, the serve loop, the wifi
supervisor iteration, and the `TcpClient::connect` assembly.

Machine integers are modelled as `Nat` with explicit `% 256` where the
source performs a `u32 -> u8` cast (`v as u8`).  The external JSON parser
(`serde_json_core`) is modelled by a parameter of type
`List Nat → Option IncomingCommand`; the `match` on its result is embedded
faithfully (`none` is the `Err` branch).
-/

/-- Mirror of `struct IncomingCommand` (`main.rs` lines 244-252 and
`tcp_client.rs` lines 10-18): `type` is a required string, `id` and `value`
are optional unsigned 32-bit integers (modelled as `Nat`). -/
structure IncomingCommand where
  cmd_type : String
  id : Option Nat
  value : Option Nat
deriving Repr, DecidableEq

/-- The structured responses the client serializes back to the peer:
`ack {id, ok}`, `error {id, message}`, `value {id, value}`
(the `alloc::format!` lines in `handle_line` and the `TcpClient` methods). -/
inductive Response where
  | ack (id : Nat) (ok : Bool)
  | err (id : Nat) (message : String)
  | value (id : Nat) (value : Nat)
deriving Repr, DecidableEq

/-- The effect of dispatching one line: the new cached value (`cached_value:
u8`), the response written back (at most one per line; `none` when the code
falls through without writing), and whether `calibrate_routine` was invoked. -/
structure DispatchResult where
  newValue : Nat
  response : Option Response
  calibrated : Bool
deriving Repr, DecidableEq

/-- Mirror of `handle_line` (`main.rs` lines 254-346; behaviourally identical
to `TcpClient::handle_line` + `set_value`/`get_value`/`calibrate` in
`tcp_client.rs` lines 133-267).  The argument is the result of
`serde_json_core::de::from_str` on the line: `none` is the `Err(_)` branch
(parse errors ignored).  `v as u8` is embedded as `v % 256`. -/
def handle_line (parsed : Option IncomingCommand) (cached_value : Nat) :
    DispatchResult :=
  match parsed with
  | none => ⟨cached_value, none, false⟩
  | some cmd =>
    if cmd.cmd_type = "set_value" then
      match cmd.id, cmd.value with
      | some id, some v =>
        if v ≤ 100 then
          ⟨v % 256, some (Response.ack id true), false⟩
        else
          ⟨cached_value, some (Response.err id "value out of range 0..100"),
            false⟩
      | some id, none =>
        ⟨cached_value, some (Response.err id "missing value"), false⟩
      | none, _ => ⟨cached_value, none, false⟩
    else if cmd.cmd_type = "get_value" then
      match cmd.id with
      | some id => ⟨cached_value, some (Response.value id cached_value), false⟩
      | none => ⟨cached_value, none, false⟩
    else if cmd.cmd_type = "calibrate" then
      match cmd.id with
      | some id => ⟨cached_value, some (Response.ack id true), true⟩
      | none => ⟨cached_value, none, false⟩
    else
      ⟨cached_value, none, false⟩

example :
    handle_line (some ⟨"set_value", some 7, some 42⟩) 0 =
      ⟨42, some (Response.ack 7 true), false⟩ := by decide

example :
    handle_line (some ⟨"set_value", some 9, some 250⟩) 42 =
      ⟨42, some (Response.err 9 "value out of range 0..100"), false⟩ := by
  decide

example :
    handle_line (some ⟨"get_value", some 8, none⟩) 42 =
      ⟨42, some (Response.value 8 42), false⟩ := by decide

/-- Capacity of the line buffer: `let mut line_buf = [0u8; 512];`
(`main.rs` line 150, `tcp_client.rs` line 69). -/
def LINE_CAP : Nat := 512

/-- One iteration of the `for &b in &chunk[..n]` byte loop as far as the
buffer is concerned (`main.rs` lines 162-186, `tcp_client.rs` lines 81-104):
a line-feed emits the accumulated bytes as a candidate line and resets the
buffer; otherwise the byte is appended while `line_len < line_buf.len()`;
on overflow the buffer is reset and the byte is dropped
(`error!("Line too long; dropping"); line_len = 0;`). -/
def lineStep (buf : List Nat) (b : Nat) : List Nat × Option (List Nat) :=
  if b = 10 then ([], some buf)
  else if buf.length < LINE_CAP then (buf ++ [b], none)
  else ([], none)

/-- Feed a list of bytes through `lineStep`, returning the final buffer
contents and the candidate lines emitted, in order. -/
def framerFeed (buf : List Nat) : List Nat → List Nat × List (List Nat)
  | [] => (buf, [])
  | b :: bs =>
    match lineStep buf b with
    | (buf2, none) => framerFeed buf2 bs
    | (buf2, some c) =>
      let r := framerFeed buf2 bs
      (r.1, c :: r.2)

/-- Mirror of `s.trim_end_matches('\r')` on the byte level: remove ALL
trailing carriage-return (13) bytes. -/
def trimCR (l : List Nat) : List Nat :=
  (l.reverse.dropWhile (fun b => b = 13)).reverse

/-- A UTF-8 continuation byte (0x80-0xBF). -/
def contByte (b : Nat) : Bool :=
  decide (0x80 ≤ b) && decide (b ≤ 0xBF)

/-- UTF-8 validity of a byte sequence, the check performed by
`core::str::from_utf8` (RFC 3629 well-formed byte sequences). -/
def utf8Valid : List Nat → Bool
  | [] => true
  | b :: rest =>
    if b ≤ 0x7F then utf8Valid rest
    else if 0xC2 ≤ b ∧ b ≤ 0xDF then
      match rest with
      | c1 :: rest2 => contByte c1 && utf8Valid rest2
      | [] => false
    else if b = 0xE0 then
      match rest with
      | c1 :: c2 :: rest2 =>
        (decide (0xA0 ≤ c1) && decide (c1 ≤ 0xBF)) && contByte c2 &&
          utf8Valid rest2
      | _ => false
    else if (0xE1 ≤ b ∧ b ≤ 0xEC) ∨ b = 0xEE ∨ b = 0xEF then
      match rest with
      | c1 :: c2 :: rest2 => contByte c1 && contByte c2 && utf8Valid rest2
      | _ => false
    else if b = 0xED then
      match rest with
      | c1 :: c2 :: rest2 =>
        (decide (0x80 ≤ c1) && decide (c1 ≤ 0x9F)) && contByte c2 &&
          utf8Valid rest2
      | _ => false
    else if b = 0xF0 then
      match rest with
      | c1 :: c2 :: c3 :: rest2 =>
        (decide (0x90 ≤ c1) && decide (c1 ≤ 0xBF)) && contByte c2 &&
          contByte c3 && utf8Valid rest2
      | _ => false
    else if 0xF1 ≤ b ∧ b ≤ 0xF3 then
      match rest with
      | c1 :: c2 :: c3 :: rest2 =>
        contByte c1 && contByte c2 && contByte c3 && utf8Valid rest2
      | _ => false
    else if b = 0xF4 then
      match rest with
      | c1 :: c2 :: c3 :: rest2 =>
        (decide (0x80 ≤ c1) && decide (c1 ≤ 0x8F)) && contByte c2 &&
          contByte c3 && utf8Valid rest2
      | _ => false
    else false

/-- What happens to a completed candidate line before dispatch
(`main.rs` lines 165-176): decode as UTF-8 (`none` if invalid: the line is
ignored), trim trailing carriage-returns, and drop the line if it is empty
after trimming.  `some s` means `handle_line` is invoked on `s`. -/
def processCandidate (line : List Nat) : Option (List Nat) :=
  if utf8Valid line then
    let s := trimCR line
    if s = [] then none else some s
  else none

/-- The lines actually dispatched to `handle_line` when a byte stream is fed
through the framer starting from an empty buffer. -/
def framedLines (bytes : List Nat) : List (List Nat) :=
  ((framerFeed [] bytes).2).filterMap processCandidate

example : framedLines [97, 98, 10] = [[97, 98]] := by decide
example : framedLines [97, 13, 10] = [[97]] := by decide
example : framedLines [10, 10] = [] := by decide

/-- Result of one `socket.read(&mut chunk)` in the serve loop
(`main.rs` lines 154-193): a chunk of bytes (`Ok(n)`, `n > 0`), end of
stream (`Ok(0)`, remote close), or a read error (`Err(_)`). -/
inductive ReadEvent where
  | chunk (bytes : List Nat)
  | closed
  | rerr
deriving Repr, DecidableEq

/-- State of the serve phase of one session: the line buffer, the cached
value, the trail of lines handed to `handle_line` (after trimming), the log
of `write_all` outcomes (in order of attempt), and the remaining oracle of
write outcomes (the environment's answer to each `write_all`; exhausted
oracle defaults to success). -/
structure ServeState where
  buf : List Nat
  val : Nat
  dispatched : List (List Nat)
  writeLog : List Bool
  oracle : List Bool
deriving Repr, DecidableEq

/-- One `socket.write_all(..)` call: the outcome comes from the oracle and
is only recorded (the source merely logs `Write error (...)` and continues;
no branch of `handle_line` breaks, returns early across the loop, or sets a
flag on a write error). -/
def doWrite (st : ServeState) : ServeState :=
  match st.oracle with
  | [] => { st with writeLog := st.writeLog ++ [true] }
  | o :: rest => { st with writeLog := st.writeLog ++ [o], oracle := rest }

/-- One byte of the serve loop (`main.rs` lines 162-186): frame the byte
with `lineStep`; a completed candidate line is UTF-8 checked, trimmed and,
if nonempty, dispatched via `handle_line` (the external parser `parse`
models `serde_json_core::de::from_str`).  A response is serialized with two
`write_all` calls (message, then the newline). -/
def serveByte (parse : List Nat → Option IncomingCommand) (st : ServeState)
    (b : Nat) : ServeState :=
  match lineStep st.buf b with
  | (buf2, none) => { st with buf := buf2 }
  | (buf2, some cand) =>
    let st1 := { st with buf := buf2 }
    match processCandidate cand with
    | none => st1
    | some s =>
      let st2 := { st1 with dispatched := st1.dispatched ++ [s] }
      let r := handle_line (parse s) st2.val
      let st3 := { st2 with val := r.newValue }
      match r.response with
      | none => st3
      | some _ => doWrite (doWrite st3)

/-- The `'read_loop` (`main.rs` lines 154-193): process read events until the
first end-of-stream (`Ok(0)` → `break 'read_loop`) or read error
(`Err(_)` → `break 'read_loop`); chunks are fed byte by byte. -/
def serveEvents (parse : List Nat → Option IncomingCommand)
    (st : ServeState) : List ReadEvent → ServeState
  | [] => st
  | ReadEvent.closed :: _ => st
  | ReadEvent.rerr :: _ => st
  | ReadEvent.chunk bs :: rest =>
    serveEvents parse (bs.foldl (serveByte parse) st) rest

/-- Run the serve phase of one session from a fresh line buffer (`main.rs`
lines 150-151) with the given entering cached value and write oracle. -/
def serveRun (parse : List Nat → Option IncomingCommand) (v : Nat)
    (events : List ReadEvent) (oracle : List Bool) : ServeState :=
  serveEvents parse ⟨[], v, [], [], oracle⟩ events

/-- `let mut cached_value: u8 = 0;` (`main.rs` line 93): the setpoint at
process start, declared outside the reconnect loop. -/
def cachedValueInit : Nat := 0

/-- Thread the cached value through the dispatch of a list of (parsed) lines
within one session. -/
def runLines (v : Nat) (cmds : List (Option IncomingCommand)) : Nat :=
  cmds.foldl (fun s c => (handle_line c s).newValue) v

/-- The process-level lifetime of `cached_value`: sessions run sequentially
inside the reconnect loop (`main.rs` lines 113-197) and the cached value is
declared OUTSIDE that loop (line 93), so each session starts from the value
the previous session ended with; the process starts from `cachedValueInit`. -/
def runSessions (sessions : List (List (Option IncomingCommand))) : Nat :=
  sessions.foldl (fun s cmds => runLines s cmds) cachedValueInit

/-- The bytes of the JSON line with type set_value, id 1, value 5
(braces 123/125, double quotes 34). -/
def demoLine1 : List Nat :=
  [123, 34, 116, 121, 112, 101, 34, 58, 34, 115, 101, 116, 95, 118, 97, 108,
   117, 101, 34, 44, 34, 105, 100, 34, 58, 49, 44, 34, 118, 97, 108, 117,
   101, 34, 58, 53, 125]

/-- The bytes of the JSON line with type set_value, id 2, value 7. -/
def demoLine2 : List Nat :=
  [123, 34, 116, 121, 112, 101, 34, 58, 34, 115, 101, 116, 95, 118, 97, 108,
   117, 101, 34, 44, 34, 105, 100, 34, 58, 50, 44, 34, 118, 97, 108, 117,
   101, 34, 58, 55, 125]

/-- Models `serde_json_core::de::from_str` (an external crate) on the two
demo lines above: each parses to the corresponding `IncomingCommand`. -/
def parseDemo (s : List Nat) : Option IncomingCommand :=
  if s = demoLine1 then some ⟨"set_value", some 1, some 5⟩
  else if s = demoLine2 then some ⟨"set_value", some 2, some 7⟩
  else none

/-- Environment inputs of one iteration of the wifi `connection` task loop
(`main.rs` lines 203-236): whether `wifi::sta_state()` is `Connected`,
whether `controller.is_started()` returned `Ok(true)`, and the success of
`set_config`, `start_async` and `connect_async`. -/
structure RadioInputs where
  staConnected : Bool
  isStarted : Bool
  setConfigOk : Bool
  startOk : Bool
  connectOk : Bool
deriving Repr, DecidableEq

/-- Outcome of one iteration of the `connection` supervisor loop. -/
inductive IterResult where
  | panicked
  | connectedLogged
  | retryAfterDelay
deriving Repr, DecidableEq

/-- One iteration of the `connection` task loop (`main.rs` lines 207-235).
When the station is connected the task first awaits `StaDisconnected` and a
5000 ms timer, then falls through to the same code, so `staConnected` does
not affect the outcome.  If the controller is not started, the source calls
`controller.set_config(&client_config).unwrap()` and
`controller.start_async().await.unwrap()`: an `Err` from either unwraps into
a panic.  `connect_async` failure is logged and followed by a 5000 ms delay
(`retryAfterDelay`); success is logged (`connectedLogged`). -/
def connectionIter (i : RadioInputs) : IterResult :=
  if i.isStarted then
    if i.connectOk then IterResult.connectedLogged
    else IterResult.retryAfterDelay
  else if i.setConfigOk then
    if i.startOk then
      if i.connectOk then IterResult.connectedLogged
      else IterResult.retryAfterDelay
    else IterResult.panicked
  else IterResult.panicked

/-- The observable pieces of an `embassy_net::tcp::TcpSocket` freshly built
in `TcpClient::connect` (`tcp_client.rs` lines 41-65): `set_timeout(None)`
has been applied, and whether `socket.connect(..)` succeeded. -/
structure ModelSocket where
  timeoutNone : Bool
  connected : Bool
deriving Repr, DecidableEq

/-- Mirror of `struct TcpClient` (`tcp_client.rs` lines 28-31). -/
structure TcpClient where
  socket : Option ModelSocket
  cached_value : Nat
deriving Repr, DecidableEq

/-- Outcome of the underlying `socket.connect((address, SERVER_PORT))`. -/
inductive ConnResult where
  | ok
  | err
deriving Repr, DecidableEq

/-- Mirror of `TcpClient::new` (`tcp_client.rs` lines 34-39). -/
def TcpClient.new : TcpClient := ⟨none, 0⟩

/-- Mirror of `TcpClient::connect` (`tcp_client.rs` lines 41-65): build a
socket over the static buffers, store it in `self.socket`, set no timeout,
attempt the TCP connect; `Ok` is logged, `Err` is logged and followed by a
`RECONNECT_DELAY_MS` timer.  Either way the function returns `()` and the
socket stays in `self.socket`. -/
def TcpClient.connect (self : TcpClient) (res : ConnResult) :
    TcpClient × Unit :=
  let socket : ModelSocket := ⟨true, res = ConnResult.ok⟩
  ({ self with socket := some socket }, ())

/-- Mirror of `TcpClient::register` (`tcp_client.rs` lines 114-131) as far
as fallibility is concerned: `self.socket.as_mut().unwrap()` panics
(`none`) when no socket is stored; otherwise the register line is written
(write errors only logged) and the call completes (`some`). -/
def TcpClient.register (self : TcpClient) : Option TcpClient :=
  match self.socket with
  | none => none
  | some _ => some self

/-- C1: a dispatched line parsing as `set_value` with both `id` and `value`
present and `value ≤ 100` sets the cached setpoint to exactly that value
(the `u32 → u8` narrowing `v as u8` loses nothing because `v ≤ 100 < 256`)
and responds `Ack{id, ok:true}`. -/
theorem C1_set_value_valid (id v s : Nat) (h : v ≤ 100) :
    handle_line (some ⟨"set_value", some id, some v⟩) s =
      ⟨v, some (Response.ack id true), false⟩ := by
  have hm : v % 256 = v := Nat.mod_eq_of_lt (lt_of_le_of_lt h (by norm_num))
  simp [handle_line, h, hm]

/-- Witness for C1 at `id = 7`, `v = 42`, entering state `0`. -/
theorem C1_set_value_valid_witness :
    42 ≤ 100 ∧
    handle_line (some ⟨"set_value", some 7, some 42⟩) 0 =
      ⟨42, some (Response.ack 7 true), false⟩ :=
  ⟨by decide, C1_set_value_valid 7 42 0 (by decide)⟩

/-- C2: a `set_value` with `id` present but `value > 100` (resp. `value`
absent) leaves the setpoint unchanged and responds with the correlated
error `Error{id, "value out of range 0..100"}` (resp.
`Error{id, "missing value"}`). -/
theorem C2_set_value_invalid (id v s : Nat) (h : 100 < v) :
    handle_line (some ⟨"set_value", some id, some v⟩) s =
      ⟨s, some (Response.err id "value out of range 0..100"), false⟩ ∧
    handle_line (some ⟨"set_value", some id, none⟩) s =
      ⟨s, some (Response.err id "missing value"), false⟩ := by
  constructor
  · simp [handle_line, Nat.not_le.mpr h]
  · simp [handle_line]

/-- Witness for C2 at `id = 9`, `v = 250`, entering state `42`. -/
theorem C2_set_value_invalid_witness :
    100 < 250 ∧
    (handle_line (some ⟨"set_value", some 9, some 250⟩) 42 =
      ⟨42, some (Response.err 9 "value out of range 0..100"), false⟩ ∧
    handle_line (some ⟨"set_value", some 9, none⟩) 42 =
      ⟨42, some (Response.err 9 "missing value"), false⟩) :=
  ⟨by decide, C2_set_value_invalid 9 250 42 (by decide)⟩

/-- C5: for `v ∈ [0,100]`, dispatching `set_value{id, v}` and then
`get_value{id2}` yields `Value{id2, v}`; moreover a `get_value` with `id`
present always responds with the current setpoint and never changes it. -/
theorem C5_set_then_get (id id2 v s : Nat) (w : Option Nat) (h : v ≤ 100) :
    handle_line (some ⟨"get_value", some id2, w⟩)
        (handle_line (some ⟨"set_value", some id, some v⟩) s).newValue =
      ⟨v, some (Response.value id2 v), false⟩ ∧
    handle_line (some ⟨"get_value", some id2, w⟩) s =
      ⟨s, some (Response.value id2 s), false⟩ := by
  have hm : v % 256 = v := Nat.mod_eq_of_lt (lt_of_le_of_lt h (by norm_num))
  constructor
  · simp [handle_line, h, hm]
  · simp [handle_line]

/-- Witness for C5 at `id = 7`, `id2 = 8`, `v = 42`, entering state `3`. -/
theorem C5_set_then_get_witness :
    42 ≤ 100 ∧
    (handle_line (some ⟨"get_value", some 8, none⟩)
        (handle_line (some ⟨"set_value", some 7, some 42⟩) 3).newValue =
      ⟨42, some (Response.value 8 42), false⟩ ∧
    handle_line (some ⟨"get_value", some 8, none⟩) 3 =
      ⟨3, some (Response.value 8 3), false⟩) :=
  ⟨by decide, C5_set_then_get 7 8 42 3 none (by decide)⟩

/-- C6: a line whose parse fails (malformed JSON), or whose `type` is none
of `set_value` / `get_value` / `calibrate`, or which lacks the correlation
`id`, produces no response and no state change; in particular `calibrate`
without `id` does not invoke the calibration routine (`calibrated = false`
in every such case). -/
theorem C6_silent_absorption (s : Nat) (cmd : IncomingCommand) :
    handle_line none s = ⟨s, none, false⟩ ∧
    (cmd.cmd_type ≠ "set_value" → cmd.cmd_type ≠ "get_value" →
      cmd.cmd_type ≠ "calibrate" →
      handle_line (some cmd) s = ⟨s, none, false⟩) ∧
    (∀ w, handle_line (some ⟨"set_value", none, w⟩) s = ⟨s, none, false⟩) ∧
    (∀ w, handle_line (some ⟨"get_value", none, w⟩) s = ⟨s, none, false⟩) ∧
    (∀ w, handle_line (some ⟨"calibrate", none, w⟩) s = ⟨s, none, false⟩) := by
  refine ⟨rfl, ?_, ?_, ?_, ?_⟩
  · intro h1 h2 h3
    rcases cmd with ⟨t, i, v⟩
    rcases i with _ | id <;> rcases v with _ | vv <;>
      simp_all [handle_line]
  · intro w; rcases w with _ | vv <;> simp [handle_line]
  · intro w; rcases w with _ | vv <;> simp [handle_line]
  · intro w; rcases w with _ | vv <;> simp [handle_line]

/-- Witness for C6: an unknown type with both fields present, and a
`calibrate` without `id`, at entering state `5`. -/
theorem C6_silent_absorption_witness :
    handle_line (some ⟨"open_sesame", some 3, some 4⟩) 5 = ⟨5, none, false⟩ ∧
    handle_line (some ⟨"calibrate", none, none⟩) 5 = ⟨5, none, false⟩ :=
  ⟨(C6_silent_absorption 5 ⟨"open_sesame", some 3, some 4⟩).2.1
      (by decide) (by decide) (by decide),
   (C6_silent_absorption 5 ⟨"open_sesame", some 3, some 4⟩).2.2.2.2 none⟩

theorem handle_line_newValue_le (c : Option IncomingCommand) (s : Nat)
    (h : s ≤ 100) : (handle_line c s).newValue ≤ 100 := by
  rcases c with _ | ⟨t, i, v⟩
  · simpa [handle_line] using h
  · rcases i with _ | id <;> rcases v with _ | vv <;>
      simp only [handle_line] <;> split_ifs <;> simp_all
    omega

theorem runLines_le (cmds : List (Option IncomingCommand)) (v : Nat)
    (h : v ≤ 100) : runLines v cmds ≤ 100 := by
  induction cmds generalizing v with
  | nil => simpa [runLines] using h
  | cons c cs ih =>
    simpa [runLines] using ih _ (handle_line_newValue_le c v h)

theorem handle_line_changed (c : Option IncomingCommand) (s : Nat)
    (h : (handle_line c s).newValue ≠ s) :
    ∃ id v, c = some ⟨"set_value", some id, some v⟩ ∧ v ≤ 100 ∧
      (handle_line c s).newValue = v := by
  rcases c with _ | ⟨t, i, v⟩
  · simp [handle_line] at h
  · rcases i with _ | id
    · rcases v with _ | vv <;>
        · simp only [handle_line] at h; split_ifs at h <;> simp_all
    · rcases v with _ | vv
      · simp only [handle_line] at h; split_ifs at h <;> simp_all
      · by_cases ht : t = "set_value"
        · subst ht
          by_cases hv : vv ≤ 100
          · have hm : vv % 256 = vv := Nat.mod_eq_of_lt (by omega)
            exact ⟨id, vv, rfl, hv, by simp [handle_line, hv, hm]⟩
          · exact absurd (by simp [handle_line, hv]) h
        · exact absurd (by simp only [handle_line]; split_ifs <;> simp_all) h

/-- C4: the setpoint starts at 0 at process start, is ≤ 100 after any
sequence of sessions, is only ever changed by a successfully validated
`set_value` (any dispatch that changes it is a `set_value` with both fields
and `value ≤ 100`, and sets it to that value), and carries over from the
end of one session to the start of the next (sessions fold over a value
declared outside the reconnect loop: it is not reset when a session ends). -/
theorem C4_setpoint_invariant :
    cachedValueInit = 0 ∧
    (∀ sessions, runSessions sessions ≤ 100) ∧
    (∀ v cmds, v ≤ 100 → runLines v cmds ≤ 100) ∧
    (∀ c s, (handle_line c s).newValue ≠ s →
      ∃ id v, c = some ⟨"set_value", some id, some v⟩ ∧ v ≤ 100 ∧
        (handle_line c s).newValue = v) ∧
    (∀ sessions cmds,
      runSessions (sessions ++ [cmds]) =
        runLines (runSessions sessions) cmds) := by
  refine ⟨rfl, ?_, fun v cmds h => runLines_le cmds v h, handle_line_changed,
    ?_⟩
  · intro sessions
    have : ∀ (ss : List (List (Option IncomingCommand))) (v : Nat),
        v ≤ 100 → ss.foldl (fun s cmds => runLines s cmds) v ≤ 100 := by
      intro ss
      induction ss with
      | nil => intro v h; simpa using h
      | cons c cs ih =>
        intro v h
        simpa using ih _ (runLines_le c v h)
    simpa [runSessions] using this sessions cachedValueInit (by decide)
  · intro sessions cmds
    simp [runSessions, List.foldl_append]

/-- Witness for C4: the inner implications at a concrete changing dispatch,
and the session-composition at concrete sessions. -/
theorem C4_setpoint_invariant_witness :
    (3 : Nat) ≤ 100 ∧
    runLines 3 [some ⟨"set_value", some 1, some 9⟩] ≤ 100 ∧
    (∃ id v,
      (some ⟨"set_value", some 1, some 9⟩ :
          Option IncomingCommand) = some ⟨"set_value", some id, some v⟩ ∧
      v ≤ 100 ∧
      (handle_line (some ⟨"set_value", some 1, some 9⟩) 3).newValue = v) :=
  ⟨by decide,
   C4_setpoint_invariant.2.2.1 3 [some ⟨"set_value", some 1, some 9⟩]
     (by decide),
   C4_setpoint_invariant.2.2.2.1 (some ⟨"set_value", some 1, some 9⟩) 3
     (by decide)⟩

theorem lineStep_fst_length_le (buf : List Nat) (b : Nat) :
    (lineStep buf b).1.length ≤ LINE_CAP := by
  unfold lineStep
  split_ifs with h1 h2
  · simp
  · simp only [List.length_append, List.length_cons, List.length_nil]
    omega
  · simp

theorem framerFeed_candidate_length (bs : List Nat) :
    ∀ buf, buf.length ≤ LINE_CAP →
      ∀ c ∈ (framerFeed buf bs).2, c.length ≤ LINE_CAP := by
  induction bs with
  | nil => intro buf _ c hc; simp [framerFeed] at hc
  | cons b bs ih =>
    intro buf h c hc
    rcases hstep : lineStep buf b with ⟨buf2, cand⟩
    have hb2 : buf2.length ≤ LINE_CAP := by
      have := lineStep_fst_length_le buf b
      rw [hstep] at this
      exact this
    rcases cand with _ | c0
    · rw [framerFeed, hstep] at hc
      exact ih buf2 hb2 c hc
    · rw [framerFeed, hstep] at hc
      simp only [List.mem_cons] at hc
      have hbc : c0 = buf := by
        unfold lineStep at hstep
        split_ifs at hstep <;> simp_all
      rcases hc with hc | hc
      · rw [hc, hbc]
        exact h
      · exact ih buf2 hb2 c hc

theorem framerFeed_append (xs ys : List Nat) : ∀ buf,
    framerFeed buf (xs ++ ys) =
      ((framerFeed (framerFeed buf xs).1 ys).1,
       (framerFeed buf xs).2 ++ (framerFeed (framerFeed buf xs).1 ys).2) := by
  induction xs with
  | nil => intro buf; simp [framerFeed]
  | cons x xs ih =>
    intro buf
    rcases hstep : lineStep buf x with ⟨buf2, cand⟩
    rcases cand with _ | c <;>
      simp [framerFeed, hstep, ih]

theorem framerFeed_noLF (bs : List Nat) : ∀ buf,
    buf.length + bs.length ≤ LINE_CAP → 10 ∉ bs →
    framerFeed buf bs = (buf ++ bs, []) := by
  induction bs with
  | nil => intro buf h hn; simp [framerFeed]
  | cons b bs ih =>
    intro buf h hn
    have hb : ¬(b = 10) := fun hb => hn (by simp [hb])
    have hlt : buf.length < LINE_CAP := by
      simp only [List.length_cons] at h
      omega
    have hn2 : 10 ∉ bs := fun hm => hn (List.mem_cons_of_mem b hm)
    have hlen2 : (buf ++ [b]).length + bs.length ≤ LINE_CAP := by
      simp only [List.length_append, List.length_cons, List.length_nil,
        List.length_cons] at h ⊢
      omega
    rw [framerFeed]
    simp only [lineStep, if_neg hb, if_pos hlt]
    rw [ih (buf ++ [b]) hlen2 hn2]
    simp

theorem framerFeed_lf_resets (xs : List Nat) (buf : List Nat) :
    (framerFeed buf (xs ++ [10])).1 = [] := by
  rw [framerFeed_append]
  simp [framerFeed, lineStep]

/-- C3 (amended): a line longer than the 512-byte capacity is not dispatched
in its entirety — every dispatched candidate is at most 512 bytes, so the
oversized line itself never reaches the dispatcher — and a valid line
following the oversized one's line-feed is still correctly framed and
dispatched; however the bytes buffered AFTER the overflow reset (the suffix
of the oversized line past the dropped 512-byte prefix and overflow byte)
form their own candidate line, which IS dispatched when nonempty and valid. -/
theorem C3_overflow_framing (pr gd : List Nat)
    (hp : LINE_CAP < pr.length) (_hnp : 10 ∉ pr) (hng : 10 ∉ gd)
    (hg : gd.length ≤ LINE_CAP) (hvalid : utf8Valid gd = true)
    (hne : trimCR gd ≠ []) :
    framedLines (pr ++ 10 :: (gd ++ [10])) =
      framedLines (pr ++ [10]) ++ [trimCR gd] ∧
    pr ∉ (framerFeed [] (pr ++ 10 :: (gd ++ [10]))).2 := by
  have hsplit : pr ++ 10 :: (gd ++ [10]) = (pr ++ [10]) ++ (gd ++ [10]) := by
    simp
  have hs1 : (framerFeed [] (pr ++ [10])).1 = [] := framerFeed_lf_resets pr []
  have hgdfeed : framerFeed [] gd = (gd, []) := by
    have := framerFeed_noLF gd [] (by simpa using hg) hng
    simpa using this
  have hgd : framerFeed [] (gd ++ [10]) = ([], [gd]) := by
    rw [framerFeed_append, hgdfeed]
    simp [framerFeed, lineStep]
  have hcand : (framerFeed [] (pr ++ 10 :: (gd ++ [10]))).2 =
      (framerFeed [] (pr ++ [10])).2 ++ [gd] := by
    rw [hsplit, framerFeed_append, hs1, hgd]
  constructor
  · unfold framedLines
    rw [hcand, List.filterMap_append]
    simp [processCandidate, hvalid, hne]
  · intro hmem
    have := framerFeed_candidate_length (pr ++ 10 :: (gd ++ [10])) []
      (by simp) pr hmem
    omega

/-- Witness for C3 (amended) at a 513-byte oversized line of 97s and the
follow-up line [98]. -/
theorem C3_overflow_framing_witness :
    LINE_CAP < (List.replicate 513 97).length ∧
    (framedLines (List.replicate 513 97 ++ 10 :: ([98] ++ [10])) =
      framedLines (List.replicate 513 97 ++ [10]) ++ [trimCR [98]] ∧
    List.replicate 513 97 ∉
      (framerFeed [] (List.replicate 513 97 ++ 10 :: ([98] ++ [10]))).2) :=
  ⟨by simp [LINE_CAP],
   C3_overflow_framing (List.replicate 513 97) [98]
     (by simp [LINE_CAP]) (by simp) (by simp) (by simp [LINE_CAP])
     (by decide) (by decide)⟩

/-- C3 counterexample: a 515-byte line (512 bytes 97, then 120, 121, 122)
terminated by a line-feed is NOT discarded entirely: the overflow reset
drops the 512 buffered bytes and the overflow byte 120, but the suffix
[121, 122] buffered after the reset is dispatched as a line.  The claim
predicts no part of the oversized line is ever dispatched. -/
theorem C3_counterexample :
    framedLines (List.replicate 512 97 ++ [120, 121, 122, 10]) =
      [[121, 122]] ∧
    List.replicate 512 97 ++ [120, 121, 122] =
      (List.replicate 512 97 ++ [120]) ++ [121, 122] := by
  constructor
  · decide
  · simp

theorem trimCR_append_replicate (l : List Nat) (k : Nat) :
    trimCR (l ++ List.replicate k 13) = trimCR l := by
  unfold trimCR
  rw [List.reverse_append, List.reverse_replicate]
  induction k with
  | zero => simp
  | succ k ih =>
    simp only [List.replicate_succ, List.cons_append, List.dropWhile_cons]
    simp only [decide_eq_true_eq, if_pos rfl]
    exact ih

/-- C9 (amended): on a completed candidate line the code strips ALL
trailing carriage-returns (`trim_end_matches('\r')`), not exactly one; a
line that is empty after this trimming is silently discarded (not
dispatched), and a non-UTF-8 line is discarded with no dispatch and hence
no response to the peer. -/
theorem C9_line_processing (line : List Nat) (k : Nat) :
    trimCR (line ++ List.replicate k 13) = trimCR line ∧
    (utf8Valid line = false → processCandidate line = none) ∧
    (trimCR line = [] → processCandidate line = none) ∧
    (utf8Valid line = true → trimCR line ≠ [] →
      processCandidate line = some (trimCR line)) := by
  refine ⟨trimCR_append_replicate line k, ?_, ?_, ?_⟩
  · intro h; simp [processCandidate, h]
  · intro h
    unfold processCandidate
    split_ifs <;> simp_all
  · intro h1 h2
    simp [processCandidate, h1, h2]

/-- Witness for C9 (amended) at line [97, 13] and two extra CRs. -/
theorem C9_line_processing_witness :
    utf8Valid [97, 13] = true ∧ trimCR [97, 13] ≠ [] ∧
    trimCR ([97, 13] ++ List.replicate 2 13) = trimCR [97, 13] ∧
    processCandidate [97, 13] = some (trimCR [97, 13]) :=
  ⟨by decide, by decide,
   (C9_line_processing [97, 13] 2).1,
   (C9_line_processing [97, 13] 2).2.2.2 (by decide) (by decide)⟩

/-- C9 counterexample: the line [97, 13, 13] followed by a line-feed.  The
claim predicts one trailing carriage-return is stripped (dispatching
[97, 13]); the code strips both (dispatching [97]). -/
theorem C9_counterexample :
    framedLines [97, 13, 13, 10] = [[97]] ∧
    framedLines [97, 13, 13, 10] ≠ [[97, 13]] := by decide

/-- The write-bookkeeping-free projection of a serve state: line buffer,
cached value and dispatched lines. -/
def ServeState.core (st : ServeState) : List Nat × Nat × List (List Nat) :=
  (st.buf, st.val, st.dispatched)

theorem doWrite_core (st : ServeState) : (doWrite st).core = st.core := by
  unfold doWrite
  cases st.oracle <;> rfl

theorem doWrite_buf (st : ServeState) : (doWrite st).buf = st.buf := by
  unfold doWrite
  cases st.oracle <;> rfl

theorem doWrite_val (st : ServeState) : (doWrite st).val = st.val := by
  unfold doWrite
  cases st.oracle <;> rfl

theorem doWrite_dispatched (st : ServeState) :
    (doWrite st).dispatched = st.dispatched := by
  unfold doWrite
  cases st.oracle <;> rfl

theorem serveByte_core (p : List Nat → Option IncomingCommand)
    (st1 st2 : ServeState) (b : Nat) (h : st1.core = st2.core) :
    (serveByte p st1 b).core = (serveByte p st2 b).core := by
  rcases st1 with ⟨b1, v1, d1, w1, o1⟩
  rcases st2 with ⟨b2, v2, d2, w2, o2⟩
  obtain ⟨hb, hv, hd⟩ : b1 = b2 ∧ v1 = v2 ∧ d1 = d2 := by
    simpa [ServeState.core, Prod.ext_iff] using h
  subst hb
  subst hv
  subst hd
  unfold serveByte
  rcases hLS : lineStep b1 b with ⟨buf2, cand⟩
  rcases cand with _ | c
  · simp [ServeState.core]
  · dsimp only
    rcases hpc : processCandidate c with _ | s
    · simp [ServeState.core]
    · dsimp only
      rcases hr : (handle_line (p s) v1).response with _ | r
      · simp [ServeState.core]
      · simp [ServeState.core, doWrite_buf, doWrite_val, doWrite_dispatched]

theorem serveChunk_core (p : List Nat → Option IncomingCommand)
    (bs : List Nat) : ∀ st1 st2 : ServeState, st1.core = st2.core →
    (bs.foldl (serveByte p) st1).core = (bs.foldl (serveByte p) st2).core := by
  induction bs with
  | nil => intro st1 st2 h; simpa using h
  | cons b bs ih =>
    intro st1 st2 h
    simp only [List.foldl_cons]
    exact ih _ _ (serveByte_core p st1 st2 b h)

theorem serveEvents_core (p : List Nat → Option IncomingCommand)
    (ev : List ReadEvent) : ∀ st1 st2 : ServeState, st1.core = st2.core →
    (serveEvents p st1 ev).core = (serveEvents p st2 ev).core := by
  induction ev with
  | nil => intro st1 st2 h; simpa [serveEvents] using h
  | cons e ev ih =>
    intro st1 st2 h
    rcases e with bs | _ | _
    · simp only [serveEvents]
      exact ih _ _ (serveChunk_core p bs st1 st2 h)
    · simpa [serveEvents] using h
    · simpa [serveEvents] using h

/-- C7 (amended): the serve phase exits exactly on end-of-stream or a read
error — events after either are never processed — while a failed response
write has NO control-flow effect: the lines dispatched and the final cached
value are identical under every write-outcome oracle, because a write
failure inside `handle_line` is only logged and serving continues (the
source breaks the read loop only on `Ok(0)` and `Err`). -/
theorem C7_serve_termination :
    (∀ (parse : List Nat → Option IncomingCommand) (v : Nat)
        (events : List ReadEvent) (o1 o2 : List Bool),
      (serveRun parse v events o1).core = (serveRun parse v events o2).core) ∧
    (∀ (parse : List Nat → Option IncomingCommand) (st : ServeState)
        (rest : List ReadEvent),
      serveEvents parse st (ReadEvent.closed :: rest) = st) ∧
    (∀ (parse : List Nat → Option IncomingCommand) (st : ServeState)
        (rest : List ReadEvent),
      serveEvents parse st (ReadEvent.rerr :: rest) = st) := by
  refine ⟨?_, ?_, ?_⟩
  · intro parse v events o1 o2
    exact serveEvents_core parse events _ _ rfl
  · intro parse st rest; rfl
  · intro parse st rest; rfl

/-- C7 counterexample: both demo `set_value` lines arrive in one chunk and
every `write_all` fails (all-false oracle).  The very first response write
fails, yet the second line is still dispatched afterwards and the setpoint
is mutated again: the serve phase does not exit on a write failure.  The
claim predicts no line is dispatched after the first failed write. -/
theorem C7_counterexample :
    (serveRun parseDemo 0
        [ReadEvent.chunk (demoLine1 ++ 10 :: (demoLine2 ++ [10]))]
        [false, false, false, false]).writeLog =
      [false, false, false, false] ∧
    (serveRun parseDemo 0
        [ReadEvent.chunk (demoLine1 ++ 10 :: (demoLine2 ++ [10]))]
        [false, false, false, false]).dispatched =
      [demoLine1, demoLine2] ∧
    (serveRun parseDemo 0
        [ReadEvent.chunk (demoLine1 ++ 10 :: (demoLine2 ++ [10]))]
        [false, false, false, false]).val = 7 := by
  decide

/-- C8 (amended): on a supervisor iteration where the radio is already
started, or where `set_config` and `start_async` both succeed, no panic
occurs: a `connect_async` failure is only logged and followed by the fixed
5000 ms retry delay.  (The unamended claim fails because `set_config` and
`start_async` failures unwrap into a panic; see the counterexample.) -/
theorem C8_supervisor_iteration (i : RadioInputs)
    (h : i.isStarted = true ∨ (i.setConfigOk = true ∧ i.startOk = true)) :
    connectionIter i ≠ IterResult.panicked ∧
    (i.connectOk = false → connectionIter i = IterResult.retryAfterDelay) ∧
    (i.connectOk = true → connectionIter i = IterResult.connectedLogged) := by
  rcases i with ⟨sta, st, cfg, sok, con⟩
  cases st <;> cases cfg <;> cases sok <;> cases con <;>
    simp_all [connectionIter]

/-- Witness for C8 (amended): radio already started, connect failing. -/
theorem C8_supervisor_iteration_witness :
    connectionIter ⟨false, true, false, false, false⟩ ≠
      IterResult.panicked ∧
    connectionIter ⟨false, true, false, false, false⟩ =
      IterResult.retryAfterDelay := by
  have h := C8_supervisor_iteration ⟨false, true, false, false, false⟩
    (Or.inl rfl)
  exact ⟨h.1, h.2.1 rfl⟩

/-- C8 counterexample: when the radio is not started and `set_config`
fails — or `set_config` succeeds but `start_async` fails — the iteration
reaches the `.unwrap()` panic.  The claim predicts the panic/abort branch is
unreachable on every supervisor iteration. -/
theorem C8_counterexample :
    connectionIter ⟨false, false, false, true, true⟩ =
      IterResult.panicked ∧
    connectionIter ⟨false, false, true, false, true⟩ =
      IterResult.panicked := by
  decide

/-- C10: `TcpClient::connect` never reports failure to its caller: for both
outcomes of the underlying TCP connect it returns `()` (the same value in
both cases, so the caller cannot distinguish them), stores the freshly
created socket in `self.socket`, and after a failed connect the stored
socket is unconnected while `register` — whose only failure mode is the
`self.socket.as_mut().unwrap()` also used by `serve` — still proceeds on
it without panicking. -/
theorem C10_connect_infallible (self : TcpClient) (res : ConnResult) :
    (TcpClient.connect self res).2 = () ∧
    ((TcpClient.connect self res).1.socket).isSome = true ∧
    (TcpClient.connect self ConnResult.err).2 =
      (TcpClient.connect self ConnResult.ok).2 ∧
    TcpClient.register (TcpClient.connect self ConnResult.err).1 =
      some (TcpClient.connect self ConnResult.err).1 ∧
    ((TcpClient.connect self ConnResult.err).1.socket.map
      ModelSocket.connected) = some false := by
  refine ⟨rfl, rfl, rfl, rfl, ?_⟩
  simp [TcpClient.connect]
